import Mathlib

/-!
Verification of the travel-assistant resilience layer.

Shallow embedding of the code paths that sit between the UI and the three
rate-limited upstream services:

* src/lib/api.ts           (client chat wrapper, namespace ChatApi)
* the chat API route       (namespace ChatRoute)
* src/lib/geocoding.ts     (geocoding client and location pipeline)
* src/lib/locations.ts     (static gazetteer)
* src/app/api/geocode/route.ts     (namespace GeocodeRoute)
* src/app/api/static-map/route.ts  (namespace StaticMapRoute)
* src/app/page.tsx         (rate-limit counters and cooldowns, namespace Page)
* the shared throttling pattern    (namespace Throttle)

Network effects are modelled by scripted lists of per-attempt outcomes; an
exhausted script behaves as a network failure.  Wall-clock time is an explicit
Nat parameter.  JS numbers are rationals, with none standing for NaN.
-/

/-- JS number as delivered by JSON: none models NaN, some q a finite value. -/
abbrev JNum := Option ℚ

/-- Character-level prefix test, needle first (helper for substring search). -/
def startsWithChars : List Char → List Char → Bool
  | [], _ => true
  | _ :: _, [] => false
  | a :: as, b :: bs => a == b && startsWithChars as bs

/-- Does the needle occur contiguously in the haystack? -/
def containsChars (needle : List Char) : List Char → Bool
  | [] => startsWithChars needle []
  | c :: rest => startsWithChars needle (c :: rest) || containsChars needle rest

/-- JS hay.includes(needle). -/
def strContains (hay needle : String) : Bool :=
  containsChars needle.data hay.data

/-- JS String.prototype.toLowerCase, restricted to the ASCII range that the
gazetteer keys use. -/
def toLowerStr (s : String) : String :=
  String.mk (s.data.map Char.toLower)

/-- The rate-limit classification repeated throughout the repository:
message.includes("Too Many Requests") || message.includes("429") ||
message.includes("rate limit"). -/
def isRateLimitErrorMsg (m : String) : Bool :=
  strContains m "Too Many Requests" || strContains m "429" || strContains m "rate limit"

/-- src/lib/types.ts Location (the optional mapStyle field is never read by the
core logic and is omitted). -/
structure Location where
  name : String
  coordinates : ℚ × ℚ
  zoom : Nat
  description : Option String := none
deriving DecidableEq

/-- src/lib/types.ts Message role. -/
inductive Role
  | user
  | assistant
  | system
deriving DecidableEq

/-- src/lib/types.ts Message. -/
structure Message where
  role : Role
  content : String
deriving DecidableEq

/-- src/lib/locations.ts locationData, in Object.entries insertion order. -/
def locationData : List (String × Location) := [
  ("paris", { name := "Paris", coordinates := (2.3522, 48.8566), zoom := 12, description := some "La capitale de la France, connue pour la Tour Eiffel et le Louvre." }),
  ("londres", { name := "Londres", coordinates := (-0.1278, 51.5074), zoom := 12, description := some "La capitale du Royaume-Uni, célèbre pour Big Ben et Buckingham Palace." }),
  ("new york", { name := "New York", coordinates := (-74.006, 40.7128), zoom := 12, description := some "La plus grande ville des États-Unis, connue pour Times Square et la Statue de la Liberté." }),
  ("tokyo", { name := "Tokyo", coordinates := (139.6917, 35.6895), zoom := 12, description := some "La capitale du Japon, mélange de culture traditionnelle et de technologie moderne." }),
  ("rome", { name := "Rome", coordinates := (12.4964, 41.9028), zoom := 12, description := some "La capitale de l\x27Italie, célèbre pour le Colisée et le Vatican." }),
  ("tunisie", { name := "Tunisie", coordinates := (9.5375, 33.8869), zoom := 7, description := some "Pays d\x27Afrique du Nord connu pour ses plages méditerranéennes et ses sites archéologiques." }),
  ("maroc", { name := "Maroc", coordinates := (-7.0926, 31.7917), zoom := 6, description := some "Pays d\x27Afrique du Nord connu pour ses médinas, ses déserts et sa cuisine." }),
  ("barcelone", { name := "Barcelone", coordinates := (2.1734, 41.3851), zoom := 12, description := some "Ville espagnole connue pour son architecture unique et ses plages." }),
  ("berlin", { name := "Berlin", coordinates := (13.405, 52.52), zoom := 12, description := some "La capitale de l\x27Allemagne, connue pour son histoire et sa scène culturelle." }),
  ("amsterdam", { name := "Amsterdam", coordinates := (4.9041, 52.3676), zoom := 12, description := some "La capitale des Pays-Bas, connue pour ses canaux et ses musées." }),
  ("venise", { name := "Venise", coordinates := (12.3155, 45.4408), zoom := 13, description := some "Ville italienne construite sur des îles et connue pour ses canaux et son architecture." }),
  ("bangkok", { name := "Bangkok", coordinates := (100.5018, 13.7563), zoom := 12, description := some "La capitale de la Thaïlande, connue pour ses temples et sa street food." }),
  ("sydney", { name := "Sydney", coordinates := (151.2093, -33.8688), zoom := 12, description := some "La plus grande ville d\x27Australie, connue pour son opéra et son port." }),
  ("rio de janeiro", { name := "Rio de Janeiro", coordinates := (-43.1729, -22.9068), zoom := 12, description := some "Ville brésilienne connue pour ses plages, le Christ Rédempteur et le carnaval." }),
  ("le caire", { name := "Le Caire", coordinates := (31.2357, 30.0444), zoom := 12, description := some "La capitale de l\x27Égypte, proche des pyramides de Gizeh." }),
  ("istanbul", { name := "Istanbul", coordinates := (28.9784, 41.0082), zoom := 12, description := some "Ville turque à cheval sur deux continents, connue pour ses mosquées et bazars." }),
  ("dubai", { name := "Dubaï", coordinates := (55.2708, 25.2048), zoom := 12, description := some "Ville des Émirats arabes unis connue pour ses gratte-ciels et son luxe." }),
  ("singapour", { name := "Singapour", coordinates := (103.8198, 1.3521), zoom := 12, description := some "Cité-État asiatique connue pour sa propreté, sa modernité et sa cuisine." }),
  ("hawaii", { name := "Hawaii", coordinates := (-157.8583, 21.3069), zoom := 10, description := some "État insulaire américain connu pour ses plages et ses volcans." }),
  ("maldives", { name := "Maldives", coordinates := (73.2207, 3.2028), zoom := 9, description := some "Archipel de l\x27océan Indien connu pour ses plages et ses récifs coralliens." }),
  ("alpes", { name := "Alpes", coordinates := (8.2275, 46.8182), zoom := 8, description := some "Chaîne de montagnes européenne populaire pour les sports d\x27hiver." })]

/-- src/lib/locations.ts defaultLocation (Paris). -/
def defaultLocation : Location :=
  { name := "Paris", coordinates := (2.3522, 48.8566), zoom := 12, description := some "La capitale de la France, connue pour la Tour Eiffel et le Louvre." }

/-- src/lib/geocoding.ts detectPredefinedLocation: the first gazetteer entry
whose key is a substring of the lower-cased text wins (Object.entries iterates
in insertion order). -/
def detectPredefinedLocation (text : String) : Option Location :=
  let lowercaseText := toLowerStr text
  (locationData.find? (fun kv => strContains lowercaseText kv.1)).map (fun kv => kv.2)

/-- validateCoordinates, duplicated verbatim in src/lib/geocoding.ts and in
src/app/api/geocode/route.ts: not NaN and inside [-180,180] x [-90,90]. -/
def validateCoordinates (lon lat : JNum) : Bool :=
  match lon, lat with
  | some lo, some la =>
    decide ((-180 : ℚ) ≤ lo ∧ lo ≤ 180 ∧ (-90 : ℚ) ≤ la ∧ la ≤ 90)
  | _, _ => false

/-- JS text.split on a whitespace-run regular expression: a leading run yields
a leading empty string and a trailing run a trailing empty string.  The flag
records whether the previous character belonged to a separator run. -/
def jsSplitWsGo (prevWs : Bool) : List Char → List Char → List String
  | [], acc => [String.mk acc.reverse]
  | c :: rest, acc =>
    if c.isWhitespace then
      if prevWs then jsSplitWsGo true rest acc
      else String.mk acc.reverse :: jsSplitWsGo true rest []
    else jsSplitWsGo false rest (c :: acc)

/-- JS text.split on whitespace runs. -/
def jsSplitWs (s : String) : List String :=
  jsSplitWsGo false s.data []

/-- The JS check word[0] === word[0].toUpperCase() on a nonempty word
(ASCII approximation: digits and symbols count as upper-invariant, as in JS). -/
def firstCharUpperInv (w : String) : Bool :=
  match w.data with
  | [] => false
  | c :: _ => c.toUpper == c

/-- Does the previous word (none at index 0) end with a period? -/
def endsWithDot : Option String → Bool
  | none => false
  | some w => w.data.getLast? == some '.'

/-- The index loop of extractLocationNames (geocoding.ts lines 206-222); prev
holds words[i-1] (none at i = 0), currentPhrase the run being built, acc the
collected phrases. -/
def extractLoop : List String → Option String → List String → List String → List String
  | [], _, currentPhrase, acc =>
    acc ++ (if currentPhrase.isEmpty then [] else [String.intercalate " " currentPhrase])
  | w :: rest, prev, currentPhrase, acc =>
    if w == "" || (prev.isNone && firstCharUpperInv w) then
      extractLoop rest (some w) currentPhrase acc
    else if firstCharUpperInv w && (prev.isNone || !(endsWithDot prev)) then
      extractLoop rest (some w) (currentPhrase ++ [w]) acc
    else if !currentPhrase.isEmpty then
      extractLoop rest (some w) [] (acc ++ [String.intercalate " " currentPhrase])
    else
      extractLoop rest (some w) currentPhrase acc

/-- src/lib/geocoding.ts extractLocationNames: maximal runs of capitalised
words that do not open the text and do not follow a period. -/
def extractLocationNames (text : String) : List String :=
  extractLoop (jsSplitWs text) none [] []

/-- Outcome of a single geocodeLocation call as seen by the pipeline: a
Location, a null result (no match), or a thrown error carrying its message. -/
inductive GeoResult
  | found (loc : Location)
  | noMatch
  | err (msg : String)
deriving DecidableEq

/-- The per-candidate loop of detectAndGeocodeLocation (geocoding.ts lines
245-264): a found location returns at once, a rate-limit error is rethrown at
once, a null result or any other failure is skipped.  The second component is
the list of geocode queries dispatched, in order. -/
def tryCandidates (geo : String → GeoResult) :
    List String → Except String (Option Location) × List String
  | [] => (.ok none, [])
  | c :: rest =>
    match geo c with
    | .found l => (.ok (some l), [c])
    | .noMatch => ((tryCandidates geo rest).1, c :: (tryCandidates geo rest).2)
    | .err m =>
      if isRateLimitErrorMsg m then (.error m, [c])
      else ((tryCandidates geo rest).1, c :: (tryCandidates geo rest).2)

/-- src/lib/geocoding.ts detectAndGeocodeLocation, with geocodeLocation
abstracted as geo: gazetteer first, then each extracted candidate phrase, then
the whole text; rate-limit errors abort and propagate, other errors are logged
and skipped (the whole-text step turns them into null).  The second component
is the list of geocode queries dispatched (none on a gazetteer hit). -/
def detectAndGeocodeLocation (geo : String → GeoResult) (text : String) :
    Except String (Option Location) × List String :=
  match detectPredefinedLocation text with
  | some l => (.ok (some l), [])
  | none =>
    match tryCandidates geo (extractLocationNames text) with
    | (.ok (some l), qs) => (.ok (some l), qs)
    | (.ok none, qs) =>
      (match geo text with
       | .found l => .ok (some l)
       | .noMatch => .ok none
       | .err m => if isRateLimitErrorMsg m then .error m else .ok none,
       qs ++ [text])
    | (.error m, qs) => (.error m, qs)

/-- Location object inside a geocode-route response body (coordinates kept as
the raw JSON array so that length and NaN checks can be modelled). -/
structure RespLoc where
  name : String
  coordinates : List JNum
  zoom : Nat
  description : Option String := none
deriving DecidableEq

/-- geocoding.ts lines 153-171: a parsed geocode response yields a Location
only when location.coordinates is a 2-element numeric array passing
validateCoordinates; anything else is null (no match). -/
def validateResponseLocation : Option RespLoc → Option Location
  | none => none
  | some loc =>
    match loc.coordinates with
    | [some lon, some lat] =>
      if validateCoordinates (some lon) (some lat) then
        some { name := loc.name, coordinates := (lon, lat), zoom := loc.zoom,
               description := loc.description }
      else none
    | _ => none

/-- Body of a simulated geocode-route response. -/
inductive GeoBody
  | okJson (loc : Option RespLoc)
  | badText (text : String)
deriving DecidableEq

/-- One simulated fetch of the geocode route.  For a non-OK response,
errDetail is the error text or JSON detail that the error-message builder
(geocoding.ts lines 63-86) would extract from the body. -/
inductive GeoFetch
  | netFail (msg : String)
  | resp (status : Nat) (errDetail : Option String) (body : GeoBody)
deriving DecidableEq

/-- geocoding.ts lines 66-86: the error message built for a non-OK response. -/
def geoErrorMessage (status : Nat) (errDetail : Option String) : String :=
  match errDetail with
  | none => "Geocoding API error: " ++ toString status
  | some d => "Geocoding API error: " ++ toString status ++ " - " ++ d

/-- The fixed rethrown rate-limit message of geocoding.ts. -/
def tooManyRequestsMsg : String := "Too Many Requests: Service temporarily unavailable"

/-- The fetch-and-retry loop of src/lib/geocoding.ts geocodeLocation (the part
after the gazetteer check, lines 28-193) over a scripted list of fetch
outcomes; an exhausted script behaves as fetch rejecting with the
non-rate-limit message "Failed to fetch".  In the source the retry is a
recursive self-call that re-checks the gazetteer; that check is pure and has
already returned null on this path, so the loop recurses directly.  Returns
the call result (error = thrown exception) together with the number of fetches
dispatched. -/
def geocodeFetchLoop (locationName : String) (outcomes : List GeoFetch)
    (retries delay : Nat) : Except String (Option Location) × Nat :=
  match outcomes, retries with
  | [], 0 => (.ok none, 1)
  | [], r + 1 =>
    let t := geocodeFetchLoop locationName [] r (delay * 2)
    (t.1, t.2 + 1)
  | GeoFetch.netFail m :: rest, r =>
    if isRateLimitErrorMsg m then (.error m, 1)
    else
      match r with
      | r' + 1 =>
        let t := geocodeFetchLoop locationName rest r' (delay * 2)
        (t.1, t.2 + 1)
      | 0 => (.ok none, 1)
  | GeoFetch.resp status errDetail body :: rest, r =>
    if status = 429 then
      match r with
      | r' + 1 =>
        let t := geocodeFetchLoop locationName rest r' (delay * 2)
        (t.1, t.2 + 1)
      | 0 => (.error tooManyRequestsMsg, 1)
    else if 200 ≤ status ∧ status < 300 then
      match body with
      | GeoBody.okJson loc => (.ok (validateResponseLocation loc), 1)
      | GeoBody.badText t =>
        if strContains t "Too Many Requests" || strContains t "429" then
          (.error tooManyRequestsMsg, 1)
        else
          match r with
          | r' + 1 =>
            let t2 := geocodeFetchLoop locationName rest r' (delay * 2)
            (t2.1, t2.2 + 1)
          | 0 => (.ok none, 1)
    else
      let em := geoErrorMessage status errDetail
      if 500 ≤ status then
        match r with
        | r' + 1 =>
          let t := geocodeFetchLoop locationName rest r' (delay * 2)
          (t.1, t.2 + 1)
        | 0 => if isRateLimitErrorMsg em then (.error em, 1) else (.ok none, 1)
      else if isRateLimitErrorMsg em then (.error em, 1)
      else
        match r with
        | r' + 1 =>
          let t := geocodeFetchLoop locationName rest r' (delay * 2)
          (t.1, t.2 + 1)
        | 0 => (.ok none, 1)

/-- src/lib/geocoding.ts geocodeLocation: the gazetteer is consulted before
any throttling or network activity; on a miss the fetch-and-retry loop runs. -/
def geocodeLocation (locationName : String) (outcomes : List GeoFetch)
    (retries delay : Nat) : Except String (Option Location) × Nat :=
  match detectPredefinedLocation locationName with
  | some l => (.ok (some l), 0)
  | none => geocodeFetchLoop locationName outcomes retries delay

namespace ChatApi

/-- src/lib/api.ts constants. -/
def MIN_REQUEST_INTERVAL : Nat := 2000

def MAX_RETRIES : Nat := 2

def INITIAL_RETRY_DELAY : Nat := 2000

/-- Parsed body of a chat-route response: some s when body.reply is the string
s, none when the field is missing or not a string. -/
inductive ClientBody
  | unparseable
  | parsed (reply : Option String)
deriving DecidableEq

/-- One simulated fetch of the chat route.  For a non-OK response, errInfo is
the message the error extraction (api.ts lines 42-53) would produce from the
body; none means it falls back to the default status message. -/
inductive ClientOutcome
  | netFail (msg : String)
  | resp (status : Nat) (errInfo : Option String) (body : ClientBody)
deriving DecidableEq

def parseErrorReply : String :=
  "Je suis désolé, une erreur s\x27est produite lors du traitement de la réponse. Veuillez réessayer."

def overloadedReply : String :=
  "Je suis désolé, mais le service est temporairement surchargé. Veuillez réessayer dans quelques instants."

def genericErrorReply : String :=
  "Je suis désolé, une erreur s\x27est produite. Veuillez réessayer dans quelques instants."

/-- src/lib/api.ts sendMessage over a scripted list of fetch outcomes; an
exhausted script behaves as fetch rejecting with "Failed to fetch", which is
not rate-limit text, so the catch block answers with the generic degraded
reply.  The result is the reply string; an error value would model an escaped
exception. -/
def sendMessage : List ClientOutcome → Nat → Nat → Except String String
  | [], _, _ => .ok genericErrorReply
  | ClientOutcome.netFail m :: rest, r + 1, delay =>
    if isRateLimitErrorMsg m then sendMessage rest r (delay * 2)
    else .ok genericErrorReply
  | ClientOutcome.netFail m :: _, 0, _ =>
    if isRateLimitErrorMsg m then .ok overloadedReply else .ok genericErrorReply
  | ClientOutcome.resp status errInfo body :: rest, r + 1, delay =>
    if status = 429 then sendMessage rest r (delay * 2)
    else if 200 ≤ status ∧ status < 300 then
      match body with
      | ClientBody.unparseable => .ok parseErrorReply
      | ClientBody.parsed none => .ok parseErrorReply
      | ClientBody.parsed (some reply) => .ok reply
    else
      let em := errInfo.getD ("HTTP error! status: " ++ toString status)
      if isRateLimitErrorMsg em then sendMessage rest r (delay * 2)
      else .ok genericErrorReply
  | ClientOutcome.resp status errInfo body :: _, 0, _ =>
    if 200 ≤ status ∧ status < 300 then
      match body with
      | ClientBody.unparseable => .ok parseErrorReply
      | ClientBody.parsed none => .ok parseErrorReply
      | ClientBody.parsed (some reply) => .ok reply
    else
      let em := errInfo.getD ("HTTP error! status: " ++ toString status)
      if isRateLimitErrorMsg em then .ok overloadedReply
      else .ok genericErrorReply

end ChatApi

namespace ChatRoute

/-- Chat route retry configuration. -/
def MAX_RETRIES : Nat := 3

def INITIAL_RETRY_DELAY : Nat := 1000

def MAX_RETRY_DELAY : Nat := 10000

def MIN_OPENAI_REQUEST_INTERVAL : Nat := 1000

/-- One element of data.choices: message is none when the choice has no message
field, some none when message.content is not a string, some (some s) when the
content is the string s. -/
structure ChatChoice where
  message : Option (Option String)
deriving DecidableEq

/-- Body of a simulated upstream chat-completion response: unparseable JSON, or
parsed with an optional choices array. -/
inductive ChatBody
  | unparseable
  | parsed (choices : Option (List ChatChoice))
deriving DecidableEq

/-- One simulated upstream fetch attempt. -/
inductive UpOutcome
  | netFail (msg : String)
  | resp (status : Nat) (body : ChatBody)
deriving DecidableEq

/-- Trace of fetchWithRetry: final result (error = escaped exception), number
of attempts dispatched, and the waits inserted between successive attempts. -/
structure FetchTrace where
  result : Except String (Nat × ChatBody)
  attempts : Nat
  delays : List Nat

/-- Chat route fetchWithRetry over scripted outcomes; an exhausted script is a
network failure on every remaining attempt.  Only 429 responses and rejected
fetches are retried; the delay doubles and is capped at MAX_RETRY_DELAY. -/
def fetchWithRetry : List UpOutcome → Nat → Nat → FetchTrace
  | [], 0, _ => ⟨.error "Failed to fetch", 1, []⟩
  | [], r + 1, delay =>
    let t := fetchWithRetry [] r (min (delay * 2) MAX_RETRY_DELAY)
    ⟨t.result, t.attempts + 1, delay :: t.delays⟩
  | UpOutcome.netFail m :: _, 0, _ => ⟨.error m, 1, []⟩
  | UpOutcome.netFail _ :: rest, r + 1, delay =>
    let t := fetchWithRetry rest r (min (delay * 2) MAX_RETRY_DELAY)
    ⟨t.result, t.attempts + 1, delay :: t.delays⟩
  | UpOutcome.resp status body :: rest, r, delay =>
    if status = 429 then
      match r with
      | r' + 1 =>
        let t := fetchWithRetry rest r' (min (delay * 2) MAX_RETRY_DELAY)
        ⟨t.result, t.attempts + 1, delay :: t.delays⟩
      | 0 => ⟨.ok (status, body), 1, []⟩
    else ⟨.ok (status, body), 1, []⟩

/-- The system prompt injected by the chat route. -/
def systemMessage : Message :=
  { role := Role.system,
    content := "Tu es un expert en voyages. Réponds de manière concise et utile en français. Limite tes réponses à 100 mots maximum." }

/-- Chat route lines 66-75: prepend the system prompt when no system entry is
present, then keep only the last 5 entries (Array.prototype.slice(-5)). -/
def recentMessages (messages : List Message) : List Message :=
  let messagesWithSystem :=
    if messages.any (fun m => m.role == Role.system) then messages
    else systemMessage :: messages
  messagesWithSystem.drop (messagesWithSystem.length - 5)

/-- The Azure OpenAI configuration read from the environment. -/
structure ChatConfig where
  endpoint : String
  key : String
  deployment : String

/-- Body of a chat-route answer. -/
inductive ChatRouteBody
  | reply (s : String)
  | err (s : String)

/-- A chat-route answer: HTTP status, body, and the message sequence that was
sent upstream (empty when no upstream call was attempted). -/
structure ChatRouteResult where
  status : Nat
  body : ChatRouteBody
  sentUpstream : List Message

def tooManyRequestsReply : String :=
  "Je suis désolé, mais je reçois trop de demandes en ce moment. Veuillez réessayer dans quelques instants."

def difficultiesReply : String :=
  "Je suis désolé, mais je rencontre des difficultés à traiter votre demande. Veuillez réessayer dans quelques instants."

def cantInterpretReply : String :=
  "Je suis désolé, j\x27ai reçu une réponse que je ne peux pas interpréter. Veuillez réessayer."

def invalidResponseReply : String :=
  "Je suis désolé, j\x27ai reçu une réponse invalide. Veuillez réessayer."

def unexpectedFormatReply : String :=
  "Je suis désolé, j\x27ai reçu une réponse dans un format inattendu. Veuillez réessayer."

def processingErrorReply : String :=
  "Je suis désolé, une erreur s\x27est produite. Veuillez réessayer dans quelques instants."

/-- The chat route POST handler: missing configuration is a 500; every upstream
outcome — exhausted retries, 429, other non-OK statuses, unparseable or
ill-shaped success bodies — is folded into a 200 response whose body carries
either the real reply or a fixed degraded reply. -/
def chatPOST (cfg : Option ChatConfig) (messages : List Message)
    (outcomes : List UpOutcome) : ChatRouteResult :=
  match cfg with
  | none => ⟨500, .err "Service configuration error", []⟩
  | some _ =>
    let recent := recentMessages messages
    match (fetchWithRetry outcomes MAX_RETRIES INITIAL_RETRY_DELAY).result with
    | .error _ => ⟨200, .reply processingErrorReply, recent⟩
    | .ok (status, body) =>
      if 200 ≤ status ∧ status < 300 then
        match body with
        | ChatBody.unparseable => ⟨200, .reply cantInterpretReply, recent⟩
        | ChatBody.parsed none => ⟨200, .reply invalidResponseReply, recent⟩
        | ChatBody.parsed (some []) => ⟨200, .reply invalidResponseReply, recent⟩
        | ChatBody.parsed (some (c :: _)) =>
          match c.message with
          | some (some content) => ⟨200, .reply content, recent⟩
          | _ => ⟨200, .reply unexpectedFormatReply, recent⟩
      else
        match body with
        | ChatBody.parsed _ =>
          if status = 429 then ⟨200, .reply tooManyRequestsReply, recent⟩
          else ⟨200, .reply difficultiesReply, recent⟩
        | ChatBody.unparseable => ⟨200, .reply difficultiesReply, recent⟩

end ChatRoute

namespace GeocodeRoute

/-- The fields of the first Azure Maps search result that the geocode route
reads.  position is none when missing or non-numeric (the typeof check);
a NaN coordinate is a number in JS, hence a JNum inside. -/
structure AzResult where
  position : Option (JNum × JNum)
  entityType : Option String := none
  freeformAddress : Option String := none
  country : Option String := none
deriving DecidableEq

/-- Geocode route lines 183-200: zoom derived from the result entity type. -/
def entityZoom : Option String → Nat
  | some "Country" => 5
  | some "CountrySubdivision" => 7
  | some "Municipality" => 10
  | some "PostalCodeArea" => 11
  | some "Neighbourhood" => 14
  | some "Street" => 15
  | some "Address" => 16
  | some "POI" => 16
  | _ => 12

/-- JS template rendering of a possibly-NaN number. -/
def showJNum : JNum → String
  | none => "NaN"
  | some q => toString q

/-- A geocode-route answer: 200 with an optional location, or an error status
with its message. -/
inductive GeoRouteOut
  | ok (location : Option Location)
  | err (status : Nat) (msg : String)
deriving DecidableEq

/-- Geocode route lines 164-221: map the Azure results to the route response.
No results is a 200 with location null; a first result without numeric
position is a 500; out-of-range coordinates are a 400; otherwise a Location is
built from the first result. -/
def buildGeocodeResponse (query : String) (results : List AzResult) : GeoRouteOut :=
  match results with
  | [] => GeoRouteOut.ok none
  | result :: _ =>
    match result.position with
    | none => GeoRouteOut.err 500 "Invalid position data in geocoding result"
    | some (some lon, some lat) =>
      if validateCoordinates (some lon) (some lat) then
        GeoRouteOut.ok (some
          { name := result.freeformAddress.getD query,
            coordinates := (lon, lat),
            zoom := entityZoom result.entityType,
            description := some (match result.country with
              | some c => result.freeformAddress.getD "" ++ ", " ++ c
              | none => result.freeformAddress.getD query) })
      else
        GeoRouteOut.err 400
          ("Invalid coordinates: " ++ showJNum (some lon) ++ ", " ++ showJNum (some lat))
    | some (plon, plat) =>
      GeoRouteOut.err 400 ("Invalid coordinates: " ++ showJNum plon ++ ", " ++ showJNum plat)

end GeocodeRoute

namespace StaticMapRoute

/-- Decimal digits to a natural number. -/
def digitsToNat (ds : List Char) : Nat :=
  ds.foldl (fun a c => a * 10 + (c.toNat - 48)) 0

/-- JS Number.parseInt restricted to the sign-and-digits forms the route
receives (prefix digits, none models NaN). -/
def jsParseInt (s : String) : Option Int :=
  match s.data with
  | '-' :: rest =>
    let ds := rest.takeWhile Char.isDigit
    if ds.isEmpty then none else some (-(digitsToNat ds : Int))
  | l =>
    let ds := l.takeWhile Char.isDigit
    if ds.isEmpty then none else some ((digitsToNat ds : Nat) : Int)

/-- Decimal digits with an optional fraction part, as a rational. -/
def parseDecChars (l : List Char) : Option ℚ :=
  let intDs := l.takeWhile Char.isDigit
  if intDs.isEmpty then none
  else
    match l.drop intDs.length with
    | '.' :: r2 =>
      let fracDs := r2.takeWhile Char.isDigit
      some ((digitsToNat intDs : ℚ) + (digitsToNat fracDs : ℚ) / (10 : ℚ) ^ fracDs.length)
    | _ => some ((digitsToNat intDs : Nat) : ℚ)

/-- JS Number.parseFloat restricted to the sign/digits/fraction forms the
route receives (none models NaN). -/
def jsParseFloat (s : String) : Option ℚ :=
  match s.data with
  | '-' :: rest => (parseDecChars rest).map (fun q => -q)
  | l => parseDecChars l

/-- JS (x || "d"): null and the empty string are falsy and take the default. -/
def jsOrDefault (o : Option String) (d : String) : String :=
  match o with
  | none => d
  | some s => if s = "" then d else s

/-- Body of a static-map route answer. -/
inductive StaticMapBody
  | url (u : String)
  | err (msg : String)

/-- The Azure static-map URL template of the route. -/
def staticMapUrl (zoom : Int) (longitude latitude : ℚ) (key : String) : String :=
  "https://atlas.microsoft.com/map/static/png?api-version=1.0&layer=basic&style=main&zoom="
    ++ toString zoom ++ "&center=" ++ toString longitude ++ "," ++ toString latitude
    ++ "&width=800&height=500&subscription-key=" ++ key

/-- Static-map route GET: query parameters default to "0"/"0"/"10" when absent
or empty, are parsed as JS numbers, validated (coordinates in range, zoom in
1..20), and on success the Azure URL is returned with status 200. -/
def staticMapGET (longitudeParam latitudeParam zoomParam : Option String)
    (apiKey : Option String) : Nat × StaticMapBody :=
  let longitude := jsParseFloat (jsOrDefault longitudeParam "0")
  let latitude := jsParseFloat (jsOrDefault latitudeParam "0")
  let zoom := jsParseInt (jsOrDefault zoomParam "10")
  match longitude, latitude with
  | some lon, some lat =>
    if (-180 : ℚ) ≤ lon ∧ lon ≤ 180 ∧ (-90 : ℚ) ≤ lat ∧ lat ≤ 90 then
      match zoom with
      | some z =>
        if 1 ≤ z ∧ z ≤ 20 then
          match apiKey with
          | none => (500, StaticMapBody.err "Map service configuration error")
          | some key => (200, StaticMapBody.url (staticMapUrl z lon lat key))
        else (400, StaticMapBody.err "Invalid zoom level")
      | none => (400, StaticMapBody.err "Invalid zoom level")
    else (400, StaticMapBody.err "Invalid coordinates")
  | _, _ => (400, StaticMapBody.err "Invalid coordinates")

end StaticMapRoute

namespace Page

/-- The rate-limit bookkeeping of src/app/page.tsx: the two error counters
(refs), the two flags, and the pending 60 s cooldown timers modelled by their
expiry instants. -/
structure RateLimitState where
  consecutiveErrors : Nat
  geocodingErrors : Nat
  isChatRateLimited : Bool
  isMapRateLimited : Bool
  chatCooldownUntil : Option Nat
  mapCooldownUntil : Option Nat
deriving DecidableEq

/-- Initial component state. -/
def initialState : RateLimitState :=
  ⟨0, 0, false, false, none, none⟩

/-- page.tsx lines 41-56: set the map flag; any pending timer is cleared and,
when the flag is raised, a fresh 60000 ms timer is armed. -/
def setMapRateLimitWithCooldown (s : RateLimitState) (limited : Bool) (now : Nat) :
    RateLimitState :=
  { s with isMapRateLimited := limited,
           mapCooldownUntil := if limited then some (now + 60000) else none }

/-- page.tsx lines 58-74: the same for the chat flag. -/
def setChatRateLimitWithCooldown (s : RateLimitState) (limited : Bool) (now : Nat) :
    RateLimitState :=
  { s with isChatRateLimited := limited,
           chatCooldownUntil := if limited then some (now + 60000) else none }

/-- page.tsx lines 188-192: is the assistant reply one of the degraded texts? -/
def isOverloadedReply (reply : String) : Bool :=
  strContains reply "trop de demandes" || strContains reply "surchargé" ||
    strContains reply "réessayer dans quelques instants"

/-- page.tsx lines 187-204: a degraded reply bumps the consecutive counter and,
exactly when the counter reaches 2, raises the chat flag with its cooldown; any
other reply resets the counter to 0. -/
def handleChatReply (s : RateLimitState) (now : Nat) (reply : String) : RateLimitState :=
  if isOverloadedReply reply then
    let s' := { s with consecutiveErrors := s.consecutiveErrors + 1 }
    if 2 ≤ s'.consecutiveErrors then setChatRateLimitWithCooldown s' true now else s'
  else { s with consecutiveErrors := 0 }

/-- page.tsx lines 140-162: a geocoding failure whose message classifies as
rate limiting raises the map flag immediately (no counter is consulted); any
other failure only bumps the geocoding error counter. -/
def handleGeocodeError (s : RateLimitState) (now : Nat) (errMsg : String) : RateLimitState :=
  if isRateLimitErrorMsg errMsg then setMapRateLimitWithCooldown s true now
  else { s with geocodingErrors := s.geocodingErrors + 1 }

/-- page.tsx lines 135-139: successful geocoding resets the geocoding error
counter. -/
def handleGeocodeSuccess (s : RateLimitState) : RateLimitState :=
  { s with geocodingErrors := 0 }

end Page

namespace Throttle

/-- The throttling pattern shared by api.ts, geocoding.ts and the API routes:
given the recorded lastRequestTime and the current clock reading, the instant
at which the request is dispatched — the caller sleeps for the missing part of
the interval — which is also the newly recorded lastRequestTime. -/
def throttleDispatch (minInterval lastRequestTime now : Nat) : Nat :=
  if now - lastRequestTime < minInterval then
    now + (minInterval - (now - lastRequestTime))
  else now

/-- Dispatch instants of a sequence of calls arriving at the given clock
readings, threading the recorded lastRequestTime. -/
def dispatchTimes (minInterval : Nat) : Nat → List Nat → List Nat
  | _, [] => []
  | lastRequestTime, now :: rest =>
    throttleDispatch minInterval lastRequestTime now ::
      dispatchTimes minInterval (throttleDispatch minInterval lastRequestTime now) rest

/-- Sequential execution model: each call reads a clock at or after the
previously recorded lastRequestTime. -/
def validArrivals (minInterval : Nat) : Nat → List Nat → Bool
  | _, [] => true
  | lastRequestTime, now :: rest =>
    decide (lastRequestTime ≤ now) &&
      validArrivals minInterval (throttleDispatch minInterval lastRequestTime now) rest

end Throttle

/-- C10: when the static-map GET omits the longitude, latitude or zoom query
parameter, the coordinate defaults to 0 and the zoom to 10; these defaults pass
validation, so a request with no parameters at all answers 200 with a map URL
centered at (0, 0) instead of a 400 error. -/
theorem staticMap_defaults_to_origin (key : String) :
    StaticMapRoute.staticMapGET none none none (some key)
      = (200, StaticMapRoute.StaticMapBody.url (StaticMapRoute.staticMapUrl 10 0 0 key)) ∧
    StaticMapRoute.jsParseFloat (StaticMapRoute.jsOrDefault none "0") = some 0 ∧
    StaticMapRoute.jsParseInt (StaticMapRoute.jsOrDefault none "10") = some 10 :=
  ⟨rfl, rfl, rfl⟩

/-- C3 counterexample: for the map endpoint class the claim fails — from the
initial state, a single rate-limit geocoding signal opens the map circuit at
once (no consecutive-signal counter is consulted). -/
theorem map_circuit_opens_on_single_signal :
    Page.handleGeocodeError Page.initialState 0 tooManyRequestsMsg
      = { Page.initialState with isMapRateLimited := true, mapCooldownUntil := some 60000 } ∧
    Page.initialState.geocodingErrors = 0 ∧
    Page.initialState.consecutiveErrors = 0 ∧
    (Page.handleGeocodeError Page.initialState 0 tooManyRequestsMsg).isMapRateLimited = true := by
  exact ⟨by decide, rfl, rfl, by decide⟩

/-- C3 amended: only the chat class counts consecutive rate-limit signals and
opens its circuit exactly when the counter reaches 2 (never after a single
signal), with a 60 s cooldown, a non-degraded reply resetting the counter to 0;
the map class opens its circuit immediately on a single rate-limit signal,
also with a 60 s cooldown. -/
theorem rate_limit_counter_behaviour :
    (∀ s now reply, Page.isOverloadedReply reply = true → s.consecutiveErrors = 0 →
      Page.handleChatReply s now reply = { s with consecutiveErrors := 1 }) ∧
    (∀ s now reply, Page.isOverloadedReply reply = true → s.consecutiveErrors = 1 →
      Page.handleChatReply s now reply
        = { s with consecutiveErrors := 2, isChatRateLimited := true, chatCooldownUntil := some (now + 60000) }) ∧
    (∀ s now reply, Page.isOverloadedReply reply = false →
      Page.handleChatReply s now reply = { s with consecutiveErrors := 0 }) ∧
    (∀ s now msg, isRateLimitErrorMsg msg = true →
      Page.handleGeocodeError s now msg
        = { s with isMapRateLimited := true, mapCooldownUntil := some (now + 60000) }) := by
  refine ⟨?_, ?_, ?_, ?_⟩
  · intro s now reply hov hc
    simp [Page.handleChatReply, hov, hc]
  · intro s now reply hov hc
    simp [Page.handleChatReply, hov, hc, Page.setChatRateLimitWithCooldown]
  · intro s now reply hov
    simp [Page.handleChatReply, hov]
  · intro s now msg hrl
    simp [Page.handleGeocodeError, hrl, Page.setMapRateLimitWithCooldown]

/-- C3 amended witness at concrete states and messages. -/
theorem rate_limit_counter_behaviour_witness :
    Page.handleChatReply Page.initialState 5 ChatApi.overloadedReply
      = { Page.initialState with consecutiveErrors := 1 } ∧
    Page.handleChatReply { Page.initialState with consecutiveErrors := 1 } 7 ChatApi.overloadedReply
      = { Page.initialState with consecutiveErrors := 2, isChatRateLimited := true, chatCooldownUntil := some (7 + 60000) } ∧
    Page.handleChatReply { Page.initialState with consecutiveErrors := 1 } 9 "Bonjour"
      = { { Page.initialState with consecutiveErrors := 1 } with consecutiveErrors := 0 } ∧
    Page.handleGeocodeError Page.initialState 11 tooManyRequestsMsg
      = { Page.initialState with isMapRateLimited := true, mapCooldownUntil := some (11 + 60000) } :=
  ⟨rate_limit_counter_behaviour.1 _ 5 _ (by decide) rfl,
   rate_limit_counter_behaviour.2.1 _ 7 _ (by decide) rfl,
   rate_limit_counter_behaviour.2.2.1 _ 9 _ (by decide),
   rate_limit_counter_behaviour.2.2.2 _ 11 _ (by decide)⟩

/-- C4: under the sequential-clock model, every call is dispatched no earlier
than lastRequestTime + minInterval, and any two successive dispatched requests
of the same endpoint class are at least minInterval apart (the repository uses
minInterval = 2000 ms in the browser modules and 1000 ms in the API routes). -/
theorem throttle_min_interval_spacing (minInterval lastRequestTime : Nat)
    (arrivals : List Nat)
    (h : Throttle.validArrivals minInterval lastRequestTime arrivals = true) :
    List.Chain' (fun a b => a + minInterval ≤ b)
      (Throttle.dispatchTimes minInterval lastRequestTime arrivals) ∧
    ∀ d ∈ (Throttle.dispatchTimes minInterval lastRequestTime arrivals).head?,
      lastRequestTime + minInterval ≤ d := by
  induction arrivals generalizing lastRequestTime with
  | nil => simp [Throttle.dispatchTimes]
  | cons now rest ih =>
    simp only [Throttle.validArrivals, Bool.and_eq_true, decide_eq_true_eq] at h
    obtain ⟨h1, h2⟩ := h
    have key : lastRequestTime + minInterval ≤
        Throttle.throttleDispatch minInterval lastRequestTime now := by
      unfold Throttle.throttleDispatch
      split <;> omega
    obtain ⟨ihc, ihh⟩ := ih _ h2
    refine ⟨?_, ?_⟩
    · simp only [Throttle.dispatchTimes]
      exact List.chain'_cons'.mpr ⟨ihh, ihc⟩
    · simp only [Throttle.dispatchTimes, List.head?_cons, Option.mem_def,
        Option.some.injEq]
      intro d hd
      omega

/-- C4 witness: three calls at clock readings 100, 2500 and 9000 with the
client minimum interval of 2000 ms. -/
theorem throttle_min_interval_spacing_witness :
    List.Chain' (fun a b => a + 2000 ≤ b) (Throttle.dispatchTimes 2000 0 [100, 2500, 9000]) ∧
    ∀ d ∈ (Throttle.dispatchTimes 2000 0 [100, 2500, 9000]).head?, 0 + 2000 ≤ d :=
  throttle_min_interval_spacing 2000 0 [100, 2500, 9000] (by decide)

/-- C6 counterexample: for a six-entry history whose system entry sits at
position 0, the sequence actually sent upstream is the last five user entries;
the system entry is not preserved (it is dropped by slice(-5)). -/
theorem system_prompt_truncated_cex :
    ChatRoute.recentMessages
      [ChatRoute.systemMessage, ⟨Role.user, "m1"⟩, ⟨Role.user, "m2"⟩,
       ⟨Role.user, "m3"⟩, ⟨Role.user, "m4"⟩, ⟨Role.user, "m5"⟩]
      = [⟨Role.user, "m1"⟩, ⟨Role.user, "m2"⟩, ⟨Role.user, "m3"⟩,
         ⟨Role.user, "m4"⟩, ⟨Role.user, "m5"⟩] ∧
    (ChatRoute.recentMessages
      [ChatRoute.systemMessage, ⟨Role.user, "m1"⟩, ⟨Role.user, "m2"⟩,
       ⟨Role.user, "m3"⟩, ⟨Role.user, "m4"⟩, ⟨Role.user, "m5"⟩]).any
      (fun m => m.role == Role.system) = false :=
  ⟨rfl, rfl⟩

/-- C6 amended: the chat route prepends the system prompt when the history has
no system entry and then truncates to the last 5 entries; the sequence sent
upstream therefore has at most 5 entries, the prepended system prompt survives
as entry zero exactly when the original history has at most 4 entries, and for
histories of 5 or more entries the result is the last 5 original entries with
no system entry at all. -/
theorem recentMessages_truncation (messages : List Message) :
    (ChatRoute.recentMessages messages).length ≤ 5 ∧
    (messages.any (fun m => m.role == Role.system) = true →
      ChatRoute.recentMessages messages = messages.drop (messages.length - 5)) ∧
    (messages.any (fun m => m.role == Role.system) = false →
      (messages.length ≤ 4 →
        ChatRoute.recentMessages messages = ChatRoute.systemMessage :: messages) ∧
      (5 ≤ messages.length →
        ChatRoute.recentMessages messages = messages.drop (messages.length - 5) ∧
        (ChatRoute.recentMessages messages).any (fun m => m.role == Role.system) = false)) := by
  refine ⟨?_, ?_, ?_⟩
  · unfold ChatRoute.recentMessages
    cases h : messages.any (fun m => m.role == Role.system) <;>
      simp [h, List.length_drop] <;> omega
  · intro h
    unfold ChatRoute.recentMessages
    simp [h]
  · intro h
    have hws : (if messages.any (fun m => m.role == Role.system) then messages
        else ChatRoute.systemMessage :: messages) = ChatRoute.systemMessage :: messages := by
      rw [h]
      simp
    constructor
    · intro hlen
      simp only [ChatRoute.recentMessages, hws, List.length_cons]
      have h0 : messages.length + 1 - 5 = 0 := by omega
      rw [h0, List.drop_zero]
    · intro hlen
      have hmain : ChatRoute.recentMessages messages = messages.drop (messages.length - 5) := by
        simp only [ChatRoute.recentMessages, hws, List.length_cons]
        have h5 : messages.length + 1 - 5 = (messages.length - 5) + 1 := by omega
        rw [h5, List.drop_succ_cons]
      refine ⟨hmain, ?_⟩
      rw [hmain]
      rw [List.any_eq_false] at h ⊢
      intro x hx
      exact h x (List.drop_subset _ _ hx)

/-- C6 amended witness: a four-entry user history keeps the prepended system
prompt; a five-entry user history loses it. -/
theorem recentMessages_truncation_witness :
    ChatRoute.recentMessages
      [⟨Role.user, "a1"⟩, ⟨Role.user, "a2"⟩, ⟨Role.user, "a3"⟩, ⟨Role.user, "a4"⟩]
      = ChatRoute.systemMessage ::
        [⟨Role.user, "a1"⟩, ⟨Role.user, "a2"⟩, ⟨Role.user, "a3"⟩, ⟨Role.user, "a4"⟩] ∧
    (ChatRoute.recentMessages
      [⟨Role.user, "b1"⟩, ⟨Role.user, "b2"⟩, ⟨Role.user, "b3"⟩, ⟨Role.user, "b4"⟩,
       ⟨Role.user, "b5"⟩]).any (fun m => m.role == Role.system) = false :=
  ⟨((recentMessages_truncation _).2.2 (by decide)).1 (by decide),
   (((recentMessages_truncation _).2.2 (by decide)).2 (by decide)).2⟩

/-- C9: a gazetteer hit short-circuits the whole pipeline — when a gazetteer
key occurs (case-insensitively) in the text, resolution returns the first
matching entry in the gazetteer order and dispatches no geocode query at all;
in particular the French sentence about visiting Paris resolves to the Paris
entry with an empty query list. -/
theorem gazetteer_hit_short_circuits :
    (∀ geo text loc, detectPredefinedLocation text = some loc →
      detectAndGeocodeLocation geo text = (.ok (some loc), [])) ∧
    (∀ text, locationData.any (fun kv => strContains (toLowerStr text) kv.1) = true →
      ∃ loc, detectPredefinedLocation text = some loc) ∧
    (∀ geo, detectAndGeocodeLocation geo "Je veux visiter Paris cet été"
      = (.ok (some { name := "Paris", coordinates := (2.3522, 48.8566), zoom := 12, description := some "La capitale de la France, connue pour la Tour Eiffel et le Louvre." }), [])) := by
  refine ⟨?_, ?_, ?_⟩
  · intro geo text loc h
    unfold detectAndGeocodeLocation
    rw [h]
  · intro text h
    rw [List.any_eq_true] at h
    obtain ⟨kv, hmem, hkv⟩ := h
    have hs : (locationData.find? (fun kv => strContains (toLowerStr text) kv.1)).isSome :=
      List.find?_isSome.mpr ⟨kv, hmem, hkv⟩
    obtain ⟨p, hp⟩ := Option.isSome_iff_exists.mp hs
    refine ⟨p.2, ?_⟩
    simp only [detectPredefinedLocation]
    rw [hp]
    rfl
  · intro geo
    rfl

/-- C9 witness: a text mentioning tokyo resolves from the gazetteer without
any query, and a text containing the key also yields a gazetteer entry. -/
theorem gazetteer_hit_short_circuits_witness :
    detectAndGeocodeLocation (fun _ => GeoResult.noMatch) "direction tokyo demain"
      = (.ok (some { name := "Tokyo", coordinates := (139.6917, 35.6895), zoom := 12, description := some "La capitale du Japon, mélange de culture traditionnelle et de technologie moderne." }), []) ∧
    ∃ loc, detectPredefinedLocation "direction tokyo demain" = some loc :=
  ⟨gazetteer_hit_short_circuits.1 _ _ _ rfl,
   gazetteer_hit_short_circuits.2.1 _ (by decide)⟩

/-- Arithmetic step for capped exponential backoff: one doubling-with-cap
composed with j further doublings equals j + 1 doublings under the cap. -/
theorem backoff_step_min (d M j : Nat) :
    min (min (d * 2) M * 2 ^ j) M = min (d * 2 ^ (j + 1)) M := by
  rcases le_total (d * 2) M with h | h
  · rw [min_eq_left h]
    have hmul : d * 2 * 2 ^ j = d * 2 ^ (j + 1) := by
      rw [pow_succ]
      ring
    rw [hmul]
  · have h1 : (1 : Nat) ≤ 2 ^ j := Nat.one_le_pow j 2 (by omega)
    rw [min_eq_right h]
    have hL : min (M * 2 ^ j) M = M :=
      min_eq_right (le_mul_of_one_le_right (Nat.zero_le M) h1)
    have hR : M ≤ d * 2 ^ (j + 1) := by
      calc M ≤ d * 2 := h
        _ ≤ d * 2 * 2 ^ j := le_mul_of_one_le_right (Nat.zero_le _) h1
        _ = d * 2 ^ (j + 1) := by rw [pow_succ]; ring
    rw [hL, min_eq_right hR]

/-- Prepending the current wait to a trace whose delays follow the capped
doubling law starting from the doubled-and-capped value yields a delay list
following the law from the current value. -/
theorem cons_delay_step (d M : Nat) (hd : d ≤ M) (ds : List Nat)
    (ih : ∀ i, i < ds.length → ds.get? i = some (min (min (d * 2) M * 2 ^ i) M)) :
    ∀ i, i < (d :: ds).length → (d :: ds).get? i = some (min (d * 2 ^ i) M) := by
  intro i hi
  cases i with
  | zero =>
    simp only [List.get?_cons_zero, pow_zero, mul_one, Option.some.injEq]
    exact (min_eq_left hd).symm
  | succ j =>
    have hj : j < ds.length := by simpa using hi
    simp only [List.get?_cons_succ]
    rw [ih j hj, backoff_step_min]

/-- C2: for every scripted upstream behaviour, fetchWithRetry dispatches at
most maxRetries + 1 attempts, and the wait between attempt k and attempt k + 1
equals min(initialDelay * 2 ^ (k - 1), MAX_RETRY_DELAY) — the delay doubles on
each retried attempt and is capped at the configured maximum. -/
theorem fetchWithRetry_attempts_and_backoff
    (outcomes : List ChatRoute.UpOutcome) (retries delay : Nat)
    (hd : delay ≤ ChatRoute.MAX_RETRY_DELAY) :
    (ChatRoute.fetchWithRetry outcomes retries delay).attempts ≤ retries + 1 ∧
    ∀ i, i < (ChatRoute.fetchWithRetry outcomes retries delay).delays.length →
      (ChatRoute.fetchWithRetry outcomes retries delay).delays.get? i
        = some (min (delay * 2 ^ i) ChatRoute.MAX_RETRY_DELAY) := by
  induction retries generalizing outcomes delay with
  | zero =>
    rcases outcomes with _ | ⟨o, rest⟩
    · exact ⟨by simp [ChatRoute.fetchWithRetry], by simp [ChatRoute.fetchWithRetry]⟩
    · cases o with
      | netFail m =>
        exact ⟨by simp [ChatRoute.fetchWithRetry], by simp [ChatRoute.fetchWithRetry]⟩
      | resp status body =>
        constructor
        · simp only [ChatRoute.fetchWithRetry]
          split <;> simp
        · simp only [ChatRoute.fetchWithRetry]
          split <;> simp
  | succ r ih =>
    have hd' : min (delay * 2) ChatRoute.MAX_RETRY_DELAY ≤ ChatRoute.MAX_RETRY_DELAY :=
      min_le_right _ _
    rcases outcomes with _ | ⟨o, rest⟩
    · obtain ⟨iha, ihd⟩ := ih [] (min (delay * 2) ChatRoute.MAX_RETRY_DELAY) hd'
      constructor
      · simp only [ChatRoute.fetchWithRetry]
        omega
      · simp only [ChatRoute.fetchWithRetry]
        exact cons_delay_step delay ChatRoute.MAX_RETRY_DELAY hd _ ihd
    · cases o with
      | netFail m =>
        obtain ⟨iha, ihd⟩ := ih rest (min (delay * 2) ChatRoute.MAX_RETRY_DELAY) hd'
        constructor
        · simp only [ChatRoute.fetchWithRetry]
          omega
        · simp only [ChatRoute.fetchWithRetry]
          exact cons_delay_step delay ChatRoute.MAX_RETRY_DELAY hd _ ihd
      | resp status body =>
        obtain ⟨iha, ihd⟩ := ih rest (min (delay * 2) ChatRoute.MAX_RETRY_DELAY) hd'
        by_cases h429 : status = 429
        · constructor
          · simp only [ChatRoute.fetchWithRetry, if_pos h429]
            omega
          · simp only [ChatRoute.fetchWithRetry, if_pos h429]
            exact cons_delay_step delay ChatRoute.MAX_RETRY_DELAY hd _ ihd
        · constructor
          · simp only [ChatRoute.fetchWithRetry, if_neg h429]
            omega
          · simp only [ChatRoute.fetchWithRetry, if_neg h429]
            simp
/-- C2 witness: the configured server values (3 retries, 1000 ms initial delay)
on a script of two 429 responses followed by a success. -/
theorem fetchWithRetry_attempts_and_backoff_witness :
    (ChatRoute.fetchWithRetry
      [ChatRoute.UpOutcome.resp 429 ChatRoute.ChatBody.unparseable,
       ChatRoute.UpOutcome.resp 429 ChatRoute.ChatBody.unparseable,
       ChatRoute.UpOutcome.resp 200 (ChatRoute.ChatBody.parsed (some [⟨some (some "ok")⟩]))]
      ChatRoute.MAX_RETRIES ChatRoute.INITIAL_RETRY_DELAY).attempts ≤ ChatRoute.MAX_RETRIES + 1 ∧
    ∀ i, i < (ChatRoute.fetchWithRetry
      [ChatRoute.UpOutcome.resp 429 ChatRoute.ChatBody.unparseable,
       ChatRoute.UpOutcome.resp 429 ChatRoute.ChatBody.unparseable,
       ChatRoute.UpOutcome.resp 200 (ChatRoute.ChatBody.parsed (some [⟨some (some "ok")⟩]))]
      ChatRoute.MAX_RETRIES ChatRoute.INITIAL_RETRY_DELAY).delays.length →
      (ChatRoute.fetchWithRetry
        [ChatRoute.UpOutcome.resp 429 ChatRoute.ChatBody.unparseable,
         ChatRoute.UpOutcome.resp 429 ChatRoute.ChatBody.unparseable,
         ChatRoute.UpOutcome.resp 200 (ChatRoute.ChatBody.parsed (some [⟨some (some "ok")⟩]))]
        ChatRoute.MAX_RETRIES ChatRoute.INITIAL_RETRY_DELAY).delays.get? i
        = some (min (ChatRoute.INITIAL_RETRY_DELAY * 2 ^ i) ChatRoute.MAX_RETRY_DELAY) :=
  fetchWithRetry_attempts_and_backoff _ ChatRoute.MAX_RETRIES ChatRoute.INITIAL_RETRY_DELAY
    (by decide)

/-- C1: for every conversation history and every scripted upstream behaviour
(429, 5xx, network failure, unparseable body, invalid format), sendMessage
never throws — it resolves with a reply string — and the chat route answers
with HTTP 200 carrying either the real reply or a fixed degraded reply, so a
configured route never shows the caller a non-200 status. -/
theorem chat_failures_fold_into_replies :
    (∀ outcomes retries delay, ∃ s, ChatApi.sendMessage outcomes retries delay = .ok s) ∧
    (∀ cfg messages outcomes,
      (ChatRoute.chatPOST (some cfg) messages outcomes).status = 200 ∧
      ∃ s, (ChatRoute.chatPOST (some cfg) messages outcomes).body
        = ChatRoute.ChatRouteBody.reply s) := by
  constructor
  · intro outcomes
    induction outcomes with
    | nil => exact fun r d => ⟨_, rfl⟩
    | cons o rest ih =>
      intro r d
      cases o with
      | netFail m =>
        cases r with
        | zero =>
          simp only [ChatApi.sendMessage]
          split
          · exact ⟨_, rfl⟩
          · exact ⟨_, rfl⟩
        | succ r' =>
          simp only [ChatApi.sendMessage]
          split
          · exact ih r' (d * 2)
          · exact ⟨_, rfl⟩
      | resp status errInfo body =>
        cases r with
        | zero =>
          simp only [ChatApi.sendMessage]
          split
          · cases body with
            | unparseable => exact ⟨_, rfl⟩
            | parsed rep => cases rep <;> exact ⟨_, rfl⟩
          · split
            · exact ⟨_, rfl⟩
            · exact ⟨_, rfl⟩
        | succ r' =>
          simp only [ChatApi.sendMessage]
          split
          · exact ih r' (d * 2)
          · split
            · cases body with
              | unparseable => exact ⟨_, rfl⟩
              | parsed rep => cases rep <;> exact ⟨_, rfl⟩
            · split
              · exact ih r' (d * 2)
              · exact ⟨_, rfl⟩
  · intro cfg messages outcomes
    constructor
    · simp only [ChatRoute.chatPOST]
      repeat' split
      all_goals rfl
    · simp only [ChatRoute.chatPOST]
      repeat' split
      all_goals exact ⟨_, rfl⟩

/-- Candidates that geocode to null or fail without rate limiting are the ones
the pipeline skips. -/
def skippable (geo : String → GeoResult) (cs : List String) : Prop :=
  ∀ c ∈ cs, geo c = GeoResult.noMatch ∨
    ∃ m, geo c = GeoResult.err m ∧ isRateLimitErrorMsg m = false

/-- The candidate loop passes over a skippable prefix, accumulating its
queries, and continues with the remaining candidates. -/
theorem tryCandidates_skips (geo : String → GeoResult) (pre l : List String)
    (h : skippable geo pre) :
    tryCandidates geo (pre ++ l)
      = ((tryCandidates geo l).1, pre ++ (tryCandidates geo l).2) := by
  induction pre with
  | nil => simp
  | cons c cs ih =>
    have hrest : skippable geo cs := fun c' hc' => h c' (List.mem_cons_of_mem _ hc')
    obtain hc | ⟨m, hm, hrl⟩ := h c (List.mem_cons_self c cs)
    · simp [tryCandidates, hc, ih hrest]
    · simp [tryCandidates, hm, hrl, ih hrest]

/-- A fully skippable candidate list yields no location and queries every
candidate. -/
theorem tryCandidates_all_skipped (geo : String → GeoResult) (cs : List String)
    (h : skippable geo cs) :
    tryCandidates geo cs = (.ok none, cs) := by
  have hs := tryCandidates_skips geo cs [] h
  simpa [tryCandidates] using hs

/-- C5: with no gazetteer hit, a rate-limit failure at any step of the
pipeline — at a candidate phrase after a skippable prefix, or at the final
whole-text attempt — aborts immediately and rethrows the error (later
candidates and the whole-text step are not consulted, as the recorded query
list shows), while a non-rate-limit whole-text failure is swallowed into a
null result after all candidates were tried. -/
theorem pipeline_rate_limit_aborts (geo : String → GeoResult) (text : String)
    (hpred : detectPredefinedLocation text = none) :
    (∀ pre c post msg, extractLocationNames text = pre ++ c :: post →
      skippable geo pre → geo c = GeoResult.err msg → isRateLimitErrorMsg msg = true →
      detectAndGeocodeLocation geo text = (.error msg, pre ++ [c])) ∧
    (∀ msg, skippable geo (extractLocationNames text) →
      geo text = GeoResult.err msg → isRateLimitErrorMsg msg = true →
      detectAndGeocodeLocation geo text
        = (.error msg, extractLocationNames text ++ [text])) ∧
    (∀ msg, skippable geo (extractLocationNames text) →
      geo text = GeoResult.err msg → isRateLimitErrorMsg msg = false →
      detectAndGeocodeLocation geo text
        = (.ok none, extractLocationNames text ++ [text])) := by
  refine ⟨?_, ?_, ?_⟩
  · intro pre c post msg hex hskip hc hrl
    have h1 : tryCandidates geo (extractLocationNames text) = (.error msg, pre ++ [c]) := by
      rw [hex, tryCandidates_skips geo pre (c :: post) hskip]
      simp [tryCandidates, hc, hrl]
    unfold detectAndGeocodeLocation
    rw [hpred, h1]
  · intro msg hskip ht hrl
    unfold detectAndGeocodeLocation
    rw [hpred, tryCandidates_all_skipped geo _ hskip]
    simp [ht, hrl]
  · intro msg hskip ht hrl
    unfold detectAndGeocodeLocation
    rw [hpred, tryCandidates_all_skipped geo _ hskip]
    simp [ht, hrl]

/-- C5 witness: the first candidate fails without rate limiting and is
skipped; the second candidate is rate limited, so the pipeline stops there and
rethrows, never reaching the whole-text step. -/
theorem pipeline_rate_limit_aborts_witness :
    detectAndGeocodeLocation
      (fun q => if q = "Lyon" then GeoResult.err tooManyRequestsMsg
        else if q = "Marseille" then GeoResult.err "boom" else GeoResult.noMatch)
      "je visite Marseille puis Lyon"
      = (.error tooManyRequestsMsg, ["Marseille"] ++ ["Lyon"]) := by
  refine (pipeline_rate_limit_aborts
    (fun q => if q = "Lyon" then GeoResult.err tooManyRequestsMsg
      else if q = "Marseille" then GeoResult.err "boom" else GeoResult.noMatch)
    "je visite Marseille puis Lyon" (by decide)).1
    ["Marseille"] "Lyon" [] tooManyRequestsMsg (by decide) ?_ (by decide) (by decide)
  intro c hc
  have hcm : c = "Marseille" := by simpa using hc
  subst hcm
  right
  exact ⟨"boom", by decide, by decide⟩

/-- C7: every Location surfaced by the geocoding path has in-range coordinates
— the client-side response validation only surfaces 2-element numeric arrays
inside [-180,180] x [-90,90] and maps anything else (including longitude 200)
to null, the geocode route rejects an out-of-range first result with a 400
instead of building a Location, and every gazetteer entry is in range. -/
theorem geocode_locations_coordinate_ranges :
    (∀ r loc, validateResponseLocation r = some loc →
      (-180 : ℚ) ≤ loc.coordinates.1 ∧ loc.coordinates.1 ≤ 180 ∧
      (-90 : ℚ) ≤ loc.coordinates.2 ∧ loc.coordinates.2 ≤ 90) ∧
    validateResponseLocation
      (some { name := "Somewhere", coordinates := [some 200, some (48.8 : ℚ)], zoom := 12 })
      = none ∧
    (∀ q results loc,
      GeocodeRoute.buildGeocodeResponse q results = GeocodeRoute.GeoRouteOut.ok (some loc) →
      (-180 : ℚ) ≤ loc.coordinates.1 ∧ loc.coordinates.1 ≤ 180 ∧
      (-90 : ℚ) ≤ loc.coordinates.2 ∧ loc.coordinates.2 ≤ 90) ∧
    (∃ m, GeocodeRoute.buildGeocodeResponse "Paris"
      [{ position := some (some 200, some (48.8 : ℚ)) }] = GeocodeRoute.GeoRouteOut.err 400 m) ∧
    (∀ kv ∈ locationData,
      (-180 : ℚ) ≤ kv.2.coordinates.1 ∧ kv.2.coordinates.1 ≤ 180 ∧
      (-90 : ℚ) ≤ kv.2.coordinates.2 ∧ kv.2.coordinates.2 ≤ 90) := by
  refine ⟨?_, by decide, ?_, ⟨_, rfl⟩, ?_⟩
  · intro r loc h
    match r with
    | none => simp [validateResponseLocation] at h
    | some rl =>
      simp only [validateResponseLocation] at h
      split at h
      · split at h
        · rename_i lon lat hcoords hval
          simp only [validateCoordinates, decide_eq_true_eq] at hval
          simp only [Option.some.injEq] at h
          subst h
          simpa using hval
        · exact absurd h (by simp)
      · exact absurd h (by simp)
  · intro q results loc h
    match results with
    | [] => simp [GeocodeRoute.buildGeocodeResponse] at h
    | result :: more =>
      simp only [GeocodeRoute.buildGeocodeResponse] at h
      split at h
      · exact absurd h (by simp)
      · split at h
        · rename_i lon lat hpos hval
          simp only [validateCoordinates, decide_eq_true_eq] at hval
          simp only [GeocodeRoute.GeoRouteOut.ok.injEq, Option.some.injEq] at h
          subst h
          simpa using hval
        · exact absurd h (by simp)
      · exact absurd h (by simp)
  · intro kv hkv
    fin_cases hkv <;> norm_num

/-- C7 witness: an in-range client response and an in-range route result are
surfaced and satisfy the bounds; the Paris gazetteer entry is in range. -/
theorem geocode_locations_coordinate_ranges_witness :
    ((-180 : ℚ) ≤ (2 : ℚ) ∧ (2 : ℚ) ≤ 180 ∧ (-90 : ℚ) ≤ 48 ∧ (48 : ℚ) ≤ 90) ∧
    ((-180 : ℚ) ≤ (9 : ℚ) ∧ (9 : ℚ) ≤ 180 ∧ (-90 : ℚ) ≤ 33 ∧ (33 : ℚ) ≤ 90) ∧
    ((-180 : ℚ) ≤ (2.3522 : ℚ) ∧ (2.3522 : ℚ) ≤ 180 ∧
      (-90 : ℚ) ≤ (48.8566 : ℚ) ∧ (48.8566 : ℚ) ≤ 90) :=
  ⟨geocode_locations_coordinate_ranges.1
      (some { name := "Ok", coordinates := [some 2, some 48], zoom := 12 })
      { name := "Ok", coordinates := (2, 48), zoom := 12 } rfl,
   geocode_locations_coordinate_ranges.2.2.1 "q"
      [{ position := some (some 9, some 33) }]
      { name := "q", coordinates := (9, 33), zoom := 12, description := some "q" } rfl,
   geocode_locations_coordinate_ranges.2.2.2.2
      ("paris", { name := "Paris", coordinates := (2.3522, 48.8566), zoom := 12, description := some "La capitale de la France, connue pour la Tour Eiffel et le Louvre." })
      (by simp [locationData])⟩

/-- C8 counterexample: on a script of three 400 responses with 2 retries
configured, geocodeLocation dispatches 3 attempts — the 400 is retried twice
through the generic catch handler — and resolves to null rather than failing
immediately with the 400 error. -/
theorem geocode_4xx_is_retried_cex :
    geocodeLocation "Quimper"
      [GeoFetch.resp 400 (some "Invalid request") (GeoBody.okJson none),
       GeoFetch.resp 400 (some "Invalid request") (GeoBody.okJson none),
       GeoFetch.resp 400 (some "Invalid request") (GeoBody.okJson none)] 2 2000
      = (.ok none, 3) ∧
    (geocodeLocation "Quimper"
      [GeoFetch.resp 400 (some "Invalid request") (GeoBody.okJson none),
       GeoFetch.resp 400 (some "Invalid request") (GeoBody.okJson none),
       GeoFetch.resp 400 (some "Invalid request") (GeoBody.okJson none)] 2 2000).2 ≠ 1 :=
  ⟨rfl, by decide⟩

/-- C8 amended: a 4xx response other than 429 skips the dedicated server-error
(5xx) retry branch, but the thrown error is caught by the generic handler,
which retries with doubled delay while retries remain and resolves to null —
not to the error — when they are exhausted; only 429 and rate-limit-classified
messages are rethrown. -/
theorem geocode_4xx_retry_behaviour (locationName : String) (rest : List GeoFetch)
    (retries delay status : Nat) (errDetail : Option String) (body : GeoBody)
    (hpred : detectPredefinedLocation locationName = none)
    (h400 : 400 ≤ status) (h500 : status < 500) (h429 : status ≠ 429)
    (hnrl : isRateLimitErrorMsg (geoErrorMessage status errDetail) = false) :
    (geocodeLocation locationName (GeoFetch.resp status errDetail body :: rest)
        (retries + 1) delay).1
      = (geocodeLocation locationName rest retries (delay * 2)).1 ∧
    (geocodeLocation locationName (GeoFetch.resp status errDetail body :: rest)
        (retries + 1) delay).2
      = (geocodeLocation locationName rest retries (delay * 2)).2 + 1 ∧
    geocodeLocation locationName (GeoFetch.resp status errDetail body :: rest) 0 delay
      = (.ok none, 1) := by
  have hok : ¬(200 ≤ status ∧ status < 300) := by omega
  have h5 : ¬(500 ≤ status) := by omega
  refine ⟨?_, ?_, ?_⟩ <;>
    (simp only [geocodeLocation, hpred]; rw [geocodeFetchLoop.eq_def];
     simp [h429, hok, h5, hnrl])

/-- C8 amended witness at a concrete 400 response with one retry left. -/
theorem geocode_4xx_retry_behaviour_witness :
    (geocodeLocation "Quimper"
        [GeoFetch.resp 400 (some "Invalid request") (GeoBody.okJson none)] 2 2000).1
      = (geocodeLocation "Quimper" [] 1 (2000 * 2)).1 ∧
    (geocodeLocation "Quimper"
        [GeoFetch.resp 400 (some "Invalid request") (GeoBody.okJson none)] 2 2000).2
      = (geocodeLocation "Quimper" [] 1 (2000 * 2)).2 + 1 ∧
    geocodeLocation "Quimper"
        [GeoFetch.resp 400 (some "Invalid request") (GeoBody.okJson none)] 0 2000
      = (.ok none, 1) :=
  geocode_4xx_retry_behaviour "Quimper" [] 1 2000 400 (some "Invalid request")
    (GeoBody.okJson none) (by decide) (by decide) (by decide) (by decide) (by decide)
